import Mathlib

/-
Verification of the data-cleaning validation notebook
(validation-notebooks/01 - Data Validation with Voluptuous.ipynb).

The notebook loads a sales table, builds three voluptuous schemas, and for
each one runs the same loop over the rows: try the schema on the row, and
on MultipleInvalid log a warning and increment an error counter.

Embedding choices:
  - a Python float is modelled as a rational number (order-preserving, and
    the float nearest to each decimal literal of the source compares to any
    float exactly as the exact rational does);
  - the reference time obtained by datetime.now inside the sanity rule is
    modelled as an explicit DateTime parameter, as the specification
    directs for a faithful reproduction;
  - datetime.strptime with the fixed format %Y-%m-%dT%H:%M:%S is modelled
    by strptimeISO below, returning none where Python raises ValueError;
  - calling strptime on a non-string raises TypeError, which the loop does
    not catch; likewise a KeyError from the logging call on a row that
    lacks the logged field. Such uncaught exceptions are modelled by the
    halted field of the program state.
-/

namespace DataVal

/-- Scalar cell values of the sales table: a Python float, modelled as a
rational number, or a string. -/
inductive Value where
  | float (q : ℚ)
  | str (s : String)
deriving DecidableEq, Repr

/-- A row of the table: the mapping from column name to scalar value that
sales.T.to_dict produces for one row index. -/
abbrev Row := List (String × Value)

/-- Dictionary lookup of a field of a row. -/
def lookupField (row : Row) (key : String) : Option Value :=
  List.lookup key row

/-- Lower bound of the Range rule of the sale amount schema, the source
literal 2.50. -/
def saleMin : ℚ := 5 / 2

/-- Upper bound of the Range rule of the sale amount schema, the source
literal 1450.99. -/
def saleMax : ℚ := 145099 / 100

/-- Errors that voluptuous collects into MultipleInvalid, rendered by the
message function below. -/
inductive VError where
  | requiredKeyNotProvided
  | expectedFloat
  | rangeTooLow
  | rangeTooHigh
  | notAValidValue
  | invalidMsg (m : String)
deriving DecidableEq, Repr

/-- Message text of an error, the core message voluptuous would print. -/
def VError.message : VError → String
  | .requiredKeyNotProvided => "required key not provided"
  | .expectedFloat => "expected float"
  | .rangeTooLow => "value must be at least 2.5"
  | .rangeTooHigh => "value must be at most 1450.99"
  | .notAValidValue => "not a valid value"
  | .invalidMsg m => m

/-- Outcome of applying one schema to one row: success, a MultipleInvalid
error (caught by the loop), or an uncaught Python exception such as the
TypeError that strptime raises on a non-string argument. -/
inductive VResult where
  | ok
  | invalid (e : VError)
  | uncaught (name : String)
deriving DecidableEq, Repr

/-- The first schema of the notebook: Required sale_amount with
All applied to the float type check and Range with min 2.50 and max
1450.99, inclusive on both sides as voluptuous defaults them, with
extra keys allowed. -/
def saleAmountValidate (row : Row) : VResult :=
  match lookupField row "sale_amount" with
  | none => .invalid .requiredKeyNotProvided
  | some (Value.str _) => .invalid .expectedFloat
  | some (Value.float q) =>
    if q < saleMin then .invalid .rangeTooLow
    else if saleMax < q then .invalid .rangeTooHigh
    else .ok

/-- Longest leading run of decimal digits of a character list, paired with
the remaining characters. -/
def takeDigits : List Char → List Char × List Char
  | [] => ([], [])
  | c :: cs =>
    if c.isDigit then
      let p := takeDigits cs
      (c :: p.1, p.2)
    else ([], c :: cs)

/-- Numeric value of a list of decimal digits. -/
def digitsToNat (ds : List Char) : Nat :=
  ds.foldl (fun a c => 10 * a + (c.toNat - 48)) 0

/-- Reads a run of one or two digits, as the strptime patterns for month,
day, hour, minute and second do when the neighbouring format characters
are non-digit literals. -/
def field2 (cs : List Char) : Option (Nat × List Char) :=
  let p := takeDigits cs
  if p.1.length = 0 ∨ 2 < p.1.length then none
  else some (digitsToNat p.1, p.2)

/-- Reads exactly four digits, as the strptime pattern for the year does. -/
def field4 (cs : List Char) : Option (Nat × List Char) :=
  let p := takeDigits cs
  if p.1.length = 4 then some (digitsToNat p.1, p.2) else none

/-- Consumes one expected literal character of the format. -/
def expectChar (c : Char) : List Char → Option (List Char)
  | [] => none
  | x :: xs => if x = c then some xs else none

/-- A parsed datetime: the six fields datetime.strptime extracts with the
format %Y-%m-%dT%H:%M:%S. -/
structure DateTime where
  year : Nat
  month : Nat
  day : Nat
  hour : Nat
  minute : Nat
  second : Nat
deriving DecidableEq, Repr

/-- Gregorian leap year rule, as the datetime module implements it. -/
def isLeapYear (y : Nat) : Bool :=
  (y % 4 == 0 && y % 100 != 0) || y % 400 == 0

/-- Days in a month, as the datetime module implements it. -/
def daysInMonth (y m : Nat) : Nat :=
  if m = 2 then (if isLeapYear y then 29 else 28)
  else if m = 4 ∨ m = 6 ∨ m = 9 ∨ m = 11 then 30
  else 31

/-- Field bounds the datetime constructor enforces: year 1 to 9999, month
1 to 12, day within the month, hour below 24, minute and second below
60. -/
def validDateTime (y mo d h mi s : Nat) : Bool :=
  decide (1 ≤ y) && decide (y ≤ 9999) &&
  decide (1 ≤ mo) && decide (mo ≤ 12) &&
  decide (1 ≤ d) && decide (d ≤ daysInMonth y mo) &&
  decide (h ≤ 23) && decide (mi ≤ 59) && decide (s ≤ 59)

/-- Model of datetime.strptime with the format %Y-%m-%dT%H:%M:%S: four
digit year, dash, month, dash, day, literal T, hour, colon, minute, colon,
second, the whole string consumed, followed by the datetime constructor
validation. Returns none exactly where Python raises ValueError. -/
def strptimeISO (s : String) : Option DateTime := do
  let cs0 := s.toList
  let (y, cs1) ← field4 cs0
  let cs2 ← expectChar '-' cs1
  let (mo, cs3) ← field2 cs2
  let cs4 ← expectChar '-' cs3
  let (d, cs5) ← field2 cs4
  let cs6 ← expectChar 'T' cs5
  let (h, cs7) ← field2 cs6
  let cs8 ← expectChar ':' cs7
  let (mi, cs9) ← field2 cs8
  let cs10 ← expectChar ':' cs9
  let (sec, cs11) ← field2 cs10
  if cs11 = [] ∧ validDateTime y mo d h mi sec then
    pure { year := y, month := mo, day := d, hour := h, minute := mi, second := sec }
  else
    none

/-- Comparison of two datetime values: lexicographic on the six fields,
exactly as Python compares datetime objects. -/
def DateTime.le (a b : DateTime) : Bool :=
  if a.year ≠ b.year then decide (a.year < b.year)
  else if a.month ≠ b.month then decide (a.month < b.month)
  else if a.day ≠ b.day then decide (a.day < b.day)
  else if a.hour ≠ b.hour then decide (a.hour < b.hour)
  else if a.minute ≠ b.minute then decide (a.minute < b.minute)
  else decide (a.second ≤ b.second)

/-- The second schema of the notebook: Required timestamp validated by the
first ValidDate factory, whose closure just calls strptime. A ValueError
from strptime becomes the voluptuous not-a-valid-value error; a
non-string argument raises an uncaught TypeError. -/
def timestampFormatValidate (row : Row) : VResult :=
  match lookupField row "timestamp" with
  | none => .invalid .requiredKeyNotProvided
  | some (Value.float _) => .uncaught "TypeError"
  | some (Value.str s) =>
    match strptimeISO s with
    | some _ => .ok
    | none => .invalid .notAValidValue

/-- The third schema of the notebook: Required timestamp validated by the
second ValidDate factory, whose closure parses the value and asserts the
parsed datetime is not after the reference time, raising Invalid with the
future-date message on AssertionError. A ValueError from strptime is not
caught by the closure and becomes the voluptuous not-a-valid-value error;
a non-string argument raises an uncaught TypeError. The reference time,
datetime.now in the source, is the explicit parameter now. -/
def timestampSanityValidate (now : DateTime) (row : Row) : VResult :=
  match lookupField row "timestamp" with
  | none => .invalid .requiredKeyNotProvided
  | some (Value.float _) => .uncaught "TypeError"
  | some (Value.str s) =>
    match strptimeISO s with
    | none => .invalid .notAValidValue
    | some dt =>
      if DateTime.le dt now then .ok
      else .invalid (.invalidMsg ("date is in the future! " ++ s))

/-- String form of a cell value, as the logging call interpolates it. -/
def Value.render : Value → String
  | .float q => toString q
  | .str s => s

/-- One emitted log record: severity and interpolated text. -/
structure LogEntry where
  level : String
  text : String
deriving DecidableEq, Repr

/-- The warning record the loop emits for one failing row: the literal
format string of the source with the row id, the logged field value and
the error message interpolated. -/
def renderLog (sId : Nat) (v : Value) (e : VError) : LogEntry :=
  { level := "WARNING"
    text := "issue with sale: " ++ toString sId ++ " (" ++ Value.render v
            ++ ") - " ++ VError.message e }

/-- State of the notebook program during one validation loop: the sales
table, the error counter, the log records emitted so far, and the name of
an uncaught exception once one has terminated the run. -/
structure PState where
  sales : List (Nat × Row)
  errorCount : Nat
  logs : List LogEntry
  halted : Option String
deriving DecidableEq, Repr

/-- One iteration of the validation loop on one (row id, row) item: apply
the schema; on success do nothing; on MultipleInvalid evaluate the logging
arguments (a KeyError if the logged field is absent terminates the run),
emit the warning and increment the counter; an uncaught exception from
the schema terminates the run. -/
def stepRow (validate : Row → VResult) (field : String)
    (st : PState) (item : Nat × Row) : PState :=
  match st.halted with
  | some _ => st
  | none =>
    match validate item.2 with
    | .ok => st
    | .invalid e =>
      match lookupField item.2 field with
      | none => { st with halted := some "KeyError" }
      | some v =>
        { st with
            errorCount := st.errorCount + 1
            logs := st.logs ++ [renderLog item.1 v e] }
    | .uncaught n => { st with halted := some n }

/-- The validation loop of the notebook, run over the whole table starting
from a zero counter and no logs. -/
def runLoopOn (validate : Row → VResult) (field : String)
    (table : List (Nat × Row)) : PState :=
  table.foldl (stepRow validate field)
    { sales := table, errorCount := 0, logs := [], halted := none }

/-- The error-count loop for the sale amount schema. -/
def runSaleLoop (table : List (Nat × Row)) : PState :=
  runLoopOn saleAmountValidate "sale_amount" table

/-- The error-count loop for the format-only timestamp schema. -/
def runTimestampFormatLoop (table : List (Nat × Row)) : PState :=
  runLoopOn timestampFormatValidate "timestamp" table

/-- The error-count loop for the date-sanity timestamp schema at a given
reference time. -/
def runTimestampSanityLoop (now : DateTime) (table : List (Nat × Row)) : PState :=
  runLoopOn (timestampSanityValidate now) "timestamp" table

/-- The log record a row contributes: one warning when the schema reports
MultipleInvalid and the logged field is present, none otherwise. -/
def failLog (validate : Row → VResult) (field : String)
    (p : Nat × Row) : Option LogEntry :=
  match validate p.2, lookupField p.2 field with
  | VResult.invalid e, some v => some (renderLog p.1 v e)
  | _, _ => none

/-- Whether the sale amount of a row is a float inside the inclusive
range of the schema. -/
def saleInRange (row : Row) : Bool :=
  match lookupField row "sale_amount" with
  | some (Value.float q) => !decide (q < saleMin) && !decide (saleMax < q)
  | _ => false

/-- Whether an optional cell value is a float. -/
def isFloatVal : Option Value → Bool
  | some (Value.float _) => true
  | _ => false

/-- Whether an optional cell value is a string. -/
def isStrVal : Option Value → Bool
  | some (Value.str _) => true
  | _ => false

/-- A row of the table that every schema accepts, with an extra column. -/
def rowGood : Row :=
  [("sale_amount", Value.float 500),
   ("timestamp", Value.str "2018-01-02T03:04:05"),
   ("store", Value.str "north")]

/-- A row with an out-of-range sale amount and an unparseable timestamp. -/
def rowBad : Row :=
  [("sale_amount", Value.float 1),
   ("timestamp", Value.str "2018-13-02T03:04:05")]

/-- A concrete two-row table used to instantiate the theorems below. -/
def tableW : List (Nat × Row) := [(0, rowGood), (1, rowBad)]

/-- A concrete reference time used to instantiate the theorems below. -/
def nowW : DateTime :=
  { year := 2019, month := 6, day := 1, hour := 12, minute := 0, second := 0 }

/-- A row on which the loop neither skips nor halts: the schema never
raises an uncaught exception on it, and the logged field is present. -/
def goodRow (validate : Row → VResult) (field : String) (p : Nat × Row) : Prop :=
  (∀ n, validate p.2 ≠ VResult.uncaught n) ∧ (lookupField p.2 field).isSome = true

/-
Theorems.
-/

theorem saleAmountValidate_float (row : Row) (q : ℚ)
    (h : lookupField row "sale_amount" = some (Value.float q)) :
    saleAmountValidate row =
      (if q < saleMin then VResult.invalid VError.rangeTooLow
       else if saleMax < q then VResult.invalid VError.rangeTooHigh
       else VResult.ok) := by
  unfold saleAmountValidate
  rw [h]

theorem timestampSanity_str_cases (now : DateTime) (row : Row) (s : String)
    (h : lookupField row "timestamp" = some (Value.str s)) :
    timestampSanityValidate now row =
      (match strptimeISO s with
       | none => VResult.invalid VError.notAValidValue
       | some dt =>
         if DateTime.le dt now then VResult.ok
         else VResult.invalid (VError.invalidMsg ("date is in the future! " ++ s))) := by
  unfold timestampSanityValidate
  rw [h]

theorem isFloatVal_exists (o : Option Value) (h : isFloatVal o = true) :
    ∃ q, o = some (Value.float q) := by
  rcases o with _ | v
  · simp [isFloatVal] at h
  · rcases v with q | s
    · exact ⟨q, rfl⟩
    · simp [isFloatVal] at h

theorem isStrVal_exists (o : Option Value) (h : isStrVal o = true) :
    ∃ s, o = some (Value.str s) := by
  rcases o with _ | v
  · simp [isStrVal] at h
  · rcases v with q | s
    · simp [isStrVal] at h
    · exact ⟨s, rfl⟩

theorem saleAmountValidate_no_uncaught (row : Row) (n : String) :
    saleAmountValidate row ≠ VResult.uncaught n := by
  unfold saleAmountValidate
  cases hl : lookupField row "sale_amount" with
  | none => simp
  | some v =>
    cases v with
    | float q =>
      dsimp only
      split_ifs <;> simp
    | str s => simp

theorem timestampSanityValidate_no_uncaught (now : DateTime) (row : Row)
    (s : String) (n : String)
    (h : lookupField row "timestamp" = some (Value.str s)) :
    timestampSanityValidate now row ≠ VResult.uncaught n := by
  rw [timestampSanity_str_cases now row s h]
  cases hp : strptimeISO s with
  | none => simp
  | some dt =>
    dsimp only
    split_ifs <;> simp

theorem stepRow_ok (validate : Row → VResult) (field : String)
    (st : PState) (p : Nat × Row)
    (hst : st.halted = none) (hv : validate p.2 = VResult.ok) :
    stepRow validate field st p = st := by
  simp [stepRow, hst, hv]

theorem stepRow_invalid (validate : Row → VResult) (field : String)
    (st : PState) (p : Nat × Row) (e : VError) (v : Value)
    (hst : st.halted = none) (hv : validate p.2 = VResult.invalid e)
    (hl : lookupField p.2 field = some v) :
    stepRow validate field st p =
      { st with errorCount := st.errorCount + 1,
                logs := st.logs ++ [renderLog p.1 v e] } := by
  simp [stepRow, hst, hv, hl]

theorem stepRow_sales (validate : Row → VResult) (field : String)
    (st : PState) (p : Nat × Row) :
    (stepRow validate field st p).sales = st.sales := by
  unfold stepRow
  split
  · rfl
  · split
    · rfl
    · split
      · rfl
      · rfl
    · rfl

theorem foldl_sales (validate : Row → VResult) (field : String) :
    ∀ (l : List (Nat × Row)) (st : PState),
      (List.foldl (stepRow validate field) st l).sales = st.sales
  | [], _ => rfl
  | p :: l, st => by
      rw [List.foldl_cons, foldl_sales validate field l, stepRow_sales]

theorem foldl_loop_ok (validate : Row → VResult) (field : String) :
    ∀ (l : List (Nat × Row)) (st : PState), st.halted = none →
      (∀ p ∈ l, goodRow validate field p) →
      List.foldl (stepRow validate field) st l =
        { st with
            errorCount := st.errorCount +
              (l.filter (fun p => decide (validate p.2 ≠ VResult.ok))).length,
            logs := st.logs ++ l.filterMap (failLog validate field) } := by
  intro l
  induction l with
  | nil =>
    intro st hst hgood
    simp
  | cons p l ih =>
    intro st hst hgood
    have hgp := hgood p (List.mem_cons_self p l)
    have hgl : ∀ q ∈ l, goodRow validate field q :=
      fun q hq => hgood q (List.mem_cons_of_mem p hq)
    rcases hv : validate p.2 with _ | e | n
    · rw [List.foldl_cons, stepRow_ok validate field st p hst hv, ih st hst hgl]
      simp [List.filter_cons, List.filterMap_cons, failLog, hv]
    · obtain ⟨v, hl⟩ := Option.isSome_iff_exists.mp hgp.2
      rw [List.foldl_cons, stepRow_invalid validate field st p e v hst hv hl,
          ih { st with errorCount := st.errorCount + 1,
                       logs := st.logs ++ [renderLog p.1 v e] } hst hgl]
      simp [List.filter_cons, List.filterMap_cons, failLog, hv, hl,
            List.append_assoc]
      omega
    · exact absurd hv (hgp.1 n)

theorem failLog_length (validate : Row → VResult) (field : String) :
    ∀ (l : List (Nat × Row)), (∀ p ∈ l, goodRow validate field p) →
      (l.filterMap (failLog validate field)).length =
        (l.filter (fun p => decide (validate p.2 ≠ VResult.ok))).length := by
  intro l
  induction l with
  | nil => intro _; rfl
  | cons p l ih =>
    intro hgood
    have hgp := hgood p (List.mem_cons_self p l)
    have hgl : ∀ q ∈ l, goodRow validate field q :=
      fun q hq => hgood q (List.mem_cons_of_mem p hq)
    rcases hv : validate p.2 with _ | e | n
    · simp [List.filterMap_cons, List.filter_cons, failLog, hv, ih hgl]
    · obtain ⟨v, hl⟩ := Option.isSome_iff_exists.mp hgp.2
      simp [List.filterMap_cons, List.filter_cons, failLog, hv, hl, ih hgl]
    · exact absurd hv (hgp.1 n)

theorem failLog_level (validate : Row → VResult) (field : String)
    (p : Nat × Row) (e : LogEntry)
    (h : failLog validate field p = some e) : e.level = "WARNING" := by
  unfold failLog at h
  split at h
  · cases h
    rfl
  · cases h

theorem saleValidate_ok_iff_inRange (row : Row)
    (h : isFloatVal (lookupField row "sale_amount") = true) :
    (saleAmountValidate row = VResult.ok) ↔ saleInRange row = true := by
  obtain ⟨q, hq⟩ := isFloatVal_exists _ h
  rw [saleAmountValidate_float row q hq]
  unfold saleInRange
  rw [hq]
  split_ifs with h1 h2
  · simp [h1]
  · simp [h1, h2]
  · simp [h1, h2]

theorem saleGoodRow (table : List (Nat × Row))
    (h : ∀ p ∈ table, (lookupField p.2 "sale_amount").isSome = true) :
    ∀ p ∈ table, goodRow saleAmountValidate "sale_amount" p :=
  fun p hp => ⟨fun n => saleAmountValidate_no_uncaught p.2 n, h p hp⟩

theorem tsGoodRow (now : DateTime) (table : List (Nat × Row))
    (h : ∀ p ∈ table, isStrVal (lookupField p.2 "timestamp") = true) :
    ∀ p ∈ table, goodRow (timestampSanityValidate now) "timestamp" p := by
  intro p hp
  obtain ⟨s, hs⟩ := isStrVal_exists _ (h p hp)
  exact ⟨fun n => timestampSanityValidate_no_uncaught now p.2 s n hs,
         by rw [hs]; rfl⟩

/-- C1: a row whose sale amount is a float inside the inclusive interval
from 2.50 to 1450.99 passes the sale amount schema; a float outside it
makes the schema report a MultipleInvalid failure, and the loop counts
that failure by incrementing the error counter. -/
theorem sale_amount_range_rule (row : Row) (q : ℚ)
    (h : lookupField row "sale_amount" = some (Value.float q)) :
    (saleAmountValidate row = VResult.ok ↔ saleMin ≤ q ∧ q ≤ saleMax) ∧
    (¬(saleMin ≤ q ∧ q ≤ saleMax) →
      (∃ e, saleAmountValidate row = VResult.invalid e) ∧
      ∀ (st : PState) (sId : Nat), st.halted = none →
        (stepRow saleAmountValidate "sale_amount" st (sId, row)).errorCount =
          st.errorCount + 1) := by
  constructor
  · rw [saleAmountValidate_float row q h]
    split_ifs with h1 h2
    · exact iff_of_false (by simp) (fun hc => absurd hc.1 (not_le.mpr h1))
    · exact iff_of_false (by simp) (fun hc => absurd hc.2 (not_le.mpr h2))
    · exact iff_of_true rfl ⟨not_lt.mp h1, not_lt.mp h2⟩
  · intro hn
    rcases lt_or_le q saleMin with h1 | h1
    · have hv : saleAmountValidate row = VResult.invalid VError.rangeTooLow := by
        rw [saleAmountValidate_float row q h, if_pos h1]
      refine ⟨⟨_, hv⟩, fun st sId hst => ?_⟩
      rw [stepRow_invalid saleAmountValidate "sale_amount" st (sId, row) _ _ hst hv h]
    · rcases lt_or_le saleMax q with h2 | h2
      · have hv : saleAmountValidate row = VResult.invalid VError.rangeTooHigh := by
          rw [saleAmountValidate_float row q h, if_neg (not_lt.mpr h1), if_pos h2]
        refine ⟨⟨_, hv⟩, fun st sId hst => ?_⟩
        rw [stepRow_invalid saleAmountValidate "sale_amount" st (sId, row) _ _ hst hv h]
      · exact absurd ⟨h1, h2⟩ hn

/-- Witness for C1 at the concrete row rowGood whose sale amount is 500. -/
theorem sale_amount_range_rule_witness :
    (saleAmountValidate rowGood = VResult.ok ↔
      saleMin ≤ (500 : ℚ) ∧ (500 : ℚ) ≤ saleMax) ∧
    (¬(saleMin ≤ (500 : ℚ) ∧ (500 : ℚ) ≤ saleMax) →
      (∃ e, saleAmountValidate rowGood = VResult.invalid e) ∧
      ∀ (st : PState) (sId : Nat), st.halted = none →
        (stepRow saleAmountValidate "sale_amount" st (sId, rowGood)).errorCount =
          st.errorCount + 1) :=
  sale_amount_range_rule rowGood 500 (by rfl)

/-- C2: on a row whose timestamp parses under the configured format, the
date-sanity rule passes when the parsed datetime is at or before the
injected reference time and reports the future-date failure exactly when
it is strictly after it. -/
theorem sanity_rule_future (row : Row) (s : String) (dt now : DateTime)
    (hs : lookupField row "timestamp" = some (Value.str s))
    (hp : strptimeISO s = some dt) :
    timestampSanityValidate now row =
      (if DateTime.le dt now then VResult.ok
       else VResult.invalid (VError.invalidMsg ("date is in the future! " ++ s))) := by
  rw [timestampSanity_str_cases now row s hs, hp]

/-- Witness for C2 at the concrete row rowGood and reference time nowW. -/
theorem sanity_rule_future_witness :
    timestampSanityValidate nowW rowGood =
      (if DateTime.le ⟨2018, 1, 2, 3, 4, 5⟩ nowW then VResult.ok
       else VResult.invalid
         (VError.invalidMsg ("date is in the future! " ++ "2018-01-02T03:04:05"))) :=
  sanity_rule_future rowGood "2018-01-02T03:04:05" ⟨2018, 1, 2, 3, 4, 5⟩ nowW
    (by rfl) (by rfl)

/-- C3: over a table whose rows all carry a float sale amount, the sale
amount loop finishes and its final error counter equals exactly the
number of rows whose sale amount violates the range rule. -/
theorem sale_loop_count_exact (table : List (Nat × Row))
    (h : ∀ p ∈ table, isFloatVal (lookupField p.2 "sale_amount") = true) :
    (runSaleLoop table).halted = none ∧
    (runSaleLoop table).errorCount =
      (table.filter (fun p => !saleInRange p.2)).length := by
  have hgood : ∀ p ∈ table, goodRow saleAmountValidate "sale_amount" p := by
    intro p hp
    refine ⟨fun n => saleAmountValidate_no_uncaught p.2 n, ?_⟩
    obtain ⟨q, hq⟩ := isFloatVal_exists _ (h p hp)
    rw [hq]
    rfl
  unfold runSaleLoop runLoopOn
  rw [foldl_loop_ok saleAmountValidate "sale_amount" table
      { sales := table, errorCount := 0, logs := [], halted := none } rfl hgood]
  refine ⟨rfl, ?_⟩
  show 0 + (table.filter _).length = _
  rw [Nat.zero_add]
  congr 1
  apply List.filter_congr
  intro p hp
  have hiff := saleValidate_ok_iff_inRange p.2 (h p hp)
  cases hb : saleInRange p.2 with
  | false =>
    rw [hb] at hiff
    simp only [Bool.not_false]
    simp [hiff]
  | true =>
    rw [hb] at hiff
    simp only [Bool.not_true]
    simp [hiff.mpr rfl]

/-- Witness for C3 at the concrete table tableW, where exactly one row
violates the range rule. -/
theorem sale_loop_count_exact_witness :
    (runSaleLoop tableW).halted = none ∧
    (runSaleLoop tableW).errorCount =
      (tableW.filter (fun p => !saleInRange p.2)).length :=
  sale_loop_count_exact tableW (by decide)

/-- C4: a row whose timestamp string does not parse under the configured
format gets the not-a-valid-value failure from both timestamp schemas,
and that message is never the future-date message, whatever string the
future-date message would interpolate. -/
theorem format_error_message (row : Row) (s : String) (now : DateTime)
    (hs : lookupField row "timestamp" = some (Value.str s))
    (hp : strptimeISO s = none) :
    timestampFormatValidate row = VResult.invalid VError.notAValidValue ∧
    timestampSanityValidate now row = VResult.invalid VError.notAValidValue ∧
    ∀ t : String, VError.message VError.notAValidValue ≠ "date is in the future! " ++ t := by
  refine ⟨?_, ?_, ?_⟩
  · unfold timestampFormatValidate
    rw [hs]
    dsimp only
    rw [hp]
  · rw [timestampSanity_str_cases now row s hs, hp]
  · intro t ht
    have hlen := congrArg String.length ht
    rw [String.length_append] at hlen
    have h17 : (VError.message VError.notAValidValue).length = 17 := rfl
    have h23 : ("date is in the future! " : String).length = 23 := rfl
    rw [h17, h23] at hlen
    omega

/-- Witness for C4 at the concrete row rowBad, whose timestamp has month
13 and so does not parse. -/
theorem format_error_message_witness :
    timestampFormatValidate rowBad = VResult.invalid VError.notAValidValue ∧
    timestampSanityValidate nowW rowBad = VResult.invalid VError.notAValidValue ∧
    (∀ t : String,
      VError.message VError.notAValidValue ≠ "date is in the future! " ++ t) :=
  format_error_message rowBad "2018-13-02T03:04:05" nowW (by rfl) (by rfl)

/-- Counterexample to C5 as stated: a row that triggers the
missing-required-field error kind is not handled by catch-log-count; the
caught error leads to a KeyError in the logging call, which terminates
the run, and the counter is never incremented. -/
theorem catch_log_count_cex :
    (runSaleLoop [(0, ([] : Row))]).halted = some "KeyError" ∧
    (runSaleLoop [(0, ([] : Row))]).errorCount = 0 ∧
    (runSaleLoop [(0, ([] : Row))]).logs = [] :=
  ⟨rfl, rfl, rfl⟩

/-- C5 amended: for rows that contain the validated field, with a string
value in the timestamp case, every error kind the schemas report
(type mismatch, out-of-range value, unparseable date, future date) is
handled identically by catch-log-count: the loop never halts, the final
counter equals the number of failing rows, and one log record is emitted
per counted failure. -/
theorem catch_log_count_amended (table : List (Nat × Row)) (now : DateTime)
    (hsale : ∀ p ∈ table, (lookupField p.2 "sale_amount").isSome = true)
    (hts : ∀ p ∈ table, isStrVal (lookupField p.2 "timestamp") = true) :
    ((runSaleLoop table).halted = none ∧
     (runSaleLoop table).errorCount =
       (table.filter (fun p => decide (saleAmountValidate p.2 ≠ VResult.ok))).length ∧
     (runSaleLoop table).logs.length = (runSaleLoop table).errorCount) ∧
    ((runTimestampSanityLoop now table).halted = none ∧
     (runTimestampSanityLoop now table).errorCount =
       (table.filter
         (fun p => decide (timestampSanityValidate now p.2 ≠ VResult.ok))).length ∧
     (runTimestampSanityLoop now table).logs.length =
       (runTimestampSanityLoop now table).errorCount) := by
  have hgs := saleGoodRow table hsale
  have hgt := tsGoodRow now table hts
  constructor
  · unfold runSaleLoop runLoopOn
    rw [foldl_loop_ok saleAmountValidate "sale_amount" table
        { sales := table, errorCount := 0, logs := [], halted := none } rfl hgs]
    refine ⟨rfl, by simp, ?_⟩
    show (List.nil ++ _).length = 0 + _
    rw [List.nil_append, Nat.zero_add, failLog_length saleAmountValidate "sale_amount" table hgs]
  · unfold runTimestampSanityLoop runLoopOn
    rw [foldl_loop_ok (timestampSanityValidate now) "timestamp" table
        { sales := table, errorCount := 0, logs := [], halted := none } rfl hgt]
    refine ⟨rfl, by simp, ?_⟩
    show (List.nil ++ _).length = 0 + _
    rw [List.nil_append, Nat.zero_add,
        failLog_length (timestampSanityValidate now) "timestamp" table hgt]

/-- Witness for the amended C5 at the concrete table tableW and reference
time nowW. -/
theorem catch_log_count_amended_witness :
    ((runSaleLoop tableW).halted = none ∧
     (runSaleLoop tableW).errorCount =
       (tableW.filter (fun p => decide (saleAmountValidate p.2 ≠ VResult.ok))).length ∧
     (runSaleLoop tableW).logs.length = (runSaleLoop tableW).errorCount) ∧
    ((runTimestampSanityLoop nowW tableW).halted = none ∧
     (runTimestampSanityLoop nowW tableW).errorCount =
       (tableW.filter
         (fun p => decide (timestampSanityValidate nowW p.2 ≠ VResult.ok))).length ∧
     (runTimestampSanityLoop nowW tableW).logs.length =
       (runTimestampSanityLoop nowW tableW).errorCount) :=
  catch_log_count_amended tableW nowW (by decide) (by decide)

/-- Counterexample to C6 as stated: after a row whose timestamp is not a
string, the uncaught TypeError terminates the run, so a later row that
fails validation is never counted or logged. -/
theorem row_independence_cex :
    (runTimestampSanityLoop nowW
      [(0, [("timestamp", Value.float 1)]),
       (1, [("timestamp", Value.str "nope")])]).halted = some "TypeError" ∧
    (runTimestampSanityLoop nowW
      [(0, [("timestamp", Value.float 1)]),
       (1, [("timestamp", Value.str "nope")])]).errorCount = 0 ∧
    timestampSanityValidate nowW [("timestamp", Value.str "nope")] ≠ VResult.ok :=
  ⟨rfl, rfl, by decide⟩

/-- C6 amended: provided every row carries a string timestamp, a failing
row never affects the rows after it: the loop never halts, the results of
a run over a concatenation are the concatenation of the results of the
separate runs, and each row contributes according to its own outcome
alone. -/
theorem row_independence_amended (now : DateTime) (t1 t2 : List (Nat × Row))
    (h : ∀ p ∈ t1 ++ t2, isStrVal (lookupField p.2 "timestamp") = true) :
    (runTimestampSanityLoop now (t1 ++ t2)).halted = none ∧
    (runTimestampSanityLoop now (t1 ++ t2)).errorCount =
      (runTimestampSanityLoop now t1).errorCount +
      (runTimestampSanityLoop now t2).errorCount ∧
    (runTimestampSanityLoop now (t1 ++ t2)).logs =
      (runTimestampSanityLoop now t1).logs ++ (runTimestampSanityLoop now t2).logs := by
  have h1 : ∀ p ∈ t1, isStrVal (lookupField p.2 "timestamp") = true :=
    fun p hp => h p (List.mem_append_left t2 hp)
  have h2 : ∀ p ∈ t2, isStrVal (lookupField p.2 "timestamp") = true :=
    fun p hp => h p (List.mem_append_right t1 hp)
  have e12 := foldl_loop_ok (timestampSanityValidate now) "timestamp" (t1 ++ t2)
      { sales := t1 ++ t2, errorCount := 0, logs := [], halted := none } rfl
      (tsGoodRow now (t1 ++ t2) h)
  have e1 := foldl_loop_ok (timestampSanityValidate now) "timestamp" t1
      { sales := t1, errorCount := 0, logs := [], halted := none } rfl
      (tsGoodRow now t1 h1)
  have e2 := foldl_loop_ok (timestampSanityValidate now) "timestamp" t2
      { sales := t2, errorCount := 0, logs := [], halted := none } rfl
      (tsGoodRow now t2 h2)
  unfold runTimestampSanityLoop runLoopOn
  rw [e12, e1, e2]
  refine ⟨rfl, ?_, ?_⟩
  · show 0 + _ = (0 + _) + (0 + _)
    simp [List.filter_append]
  · show List.nil ++ _ = (List.nil ++ _) ++ (List.nil ++ _)
    simp [List.filterMap_append]

/-- Witness for the amended C6 at two concrete one-row tables. -/
theorem row_independence_amended_witness :
    (runTimestampSanityLoop nowW ([(0, rowGood)] ++ [(1, rowBad)])).halted = none ∧
    (runTimestampSanityLoop nowW ([(0, rowGood)] ++ [(1, rowBad)])).errorCount =
      (runTimestampSanityLoop nowW [(0, rowGood)]).errorCount +
      (runTimestampSanityLoop nowW [(1, rowBad)]).errorCount ∧
    (runTimestampSanityLoop nowW ([(0, rowGood)] ++ [(1, rowBad)])).logs =
      (runTimestampSanityLoop nowW [(0, rowGood)]).logs ++
      (runTimestampSanityLoop nowW [(1, rowBad)]).logs :=
  row_independence_amended nowW [(0, rowGood)] [(1, rowBad)] (by decide)

/-- C7: none of the three validation loops mutates, creates or destroys a
row: the table component of the final program state equals the input
table for every table and reference time. -/
theorem validation_preserves_table (table : List (Nat × Row)) (now : DateTime) :
    (runSaleLoop table).sales = table ∧
    (runTimestampFormatLoop table).sales = table ∧
    (runTimestampSanityLoop now table).sales = table := by
  refine ⟨?_, ?_, ?_⟩ <;>
    simp [runSaleLoop, runTimestampFormatLoop, runTimestampSanityLoop,
          runLoopOn, foldl_sales]

/-- C8: the future-date check is a pure function of the row and the
injected reference time: equal inputs give equal outcomes, and there are
a fixed row and two different reference times with different outcomes, so
the same table can produce different counts under different reference
times. -/
theorem future_check_pure :
    (∀ (now : DateTime) (row : Row),
      timestampSanityValidate now row = timestampSanityValidate now row) ∧
    (∃ (row : Row) (now1 now2 : DateTime), now1 ≠ now2 ∧
      timestampSanityValidate now1 row ≠ timestampSanityValidate now2 row) ∧
    (∃ (table : List (Nat × Row)) (now1 now2 : DateTime),
      (runTimestampSanityLoop now1 table).errorCount ≠
      (runTimestampSanityLoop now2 table).errorCount) := by
  refine ⟨fun _ _ => rfl,
    ⟨rowGood, nowW, ⟨2017, 1, 1, 0, 0, 0⟩, by decide, by decide⟩,
    ⟨tableW, nowW, ⟨2017, 1, 1, 0, 0, 0⟩, by decide⟩⟩

/-- C9: under the hypotheses that make the loops complete, the emitted
log records are exactly one per failing row and none for a passing row,
each at warning severity, with the text interpolating the row id, the
offending field value and the error message into the format string of the
source. -/
theorem warning_log_lines (table : List (Nat × Row)) (now : DateTime)
    (hsale : ∀ p ∈ table, (lookupField p.2 "sale_amount").isSome = true)
    (hts : ∀ p ∈ table, isStrVal (lookupField p.2 "timestamp") = true) :
    (runSaleLoop table).logs =
      table.filterMap (failLog saleAmountValidate "sale_amount") ∧
    (runTimestampSanityLoop now table).logs =
      table.filterMap (failLog (timestampSanityValidate now) "timestamp") ∧
    (∀ e ∈ (runSaleLoop table).logs, e.level = "WARNING") ∧
    (∀ e ∈ (runTimestampSanityLoop now table).logs, e.level = "WARNING") ∧
    (∀ (sId : Nat) (v : Value) (err : VError), renderLog sId v err =
      { level := "WARNING",
        text := "issue with sale: " ++ toString sId ++ " (" ++ Value.render v
                ++ ") - " ++ VError.message err }) := by
  have hgs := saleGoodRow table hsale
  have hgt := tsGoodRow now table hts
  have es : (runSaleLoop table).logs =
      table.filterMap (failLog saleAmountValidate "sale_amount") := by
    unfold runSaleLoop runLoopOn
    rw [foldl_loop_ok saleAmountValidate "sale_amount" table
        { sales := table, errorCount := 0, logs := [], halted := none } rfl hgs]
    show List.nil ++ _ = _
    rw [List.nil_append]
  have et : (runTimestampSanityLoop now table).logs =
      table.filterMap (failLog (timestampSanityValidate now) "timestamp") := by
    unfold runTimestampSanityLoop runLoopOn
    rw [foldl_loop_ok (timestampSanityValidate now) "timestamp" table
        { sales := table, errorCount := 0, logs := [], halted := none } rfl hgt]
    show List.nil ++ _ = _
    rw [List.nil_append]
  refine ⟨es, et, ?_, ?_, fun _ _ _ => rfl⟩
  · intro e he
    rw [es] at he
    obtain ⟨p, _, hp⟩ := List.mem_filterMap.mp he
    exact failLog_level saleAmountValidate "sale_amount" p e hp
  · intro e he
    rw [et] at he
    obtain ⟨p, _, hp⟩ := List.mem_filterMap.mp he
    exact failLog_level (timestampSanityValidate now) "timestamp" p e hp

/-- Witness for C9 at the concrete table tableW and reference time nowW. -/
theorem warning_log_lines_witness :
    (runSaleLoop tableW).logs =
      tableW.filterMap (failLog saleAmountValidate "sale_amount") ∧
    (runTimestampSanityLoop nowW tableW).logs =
      tableW.filterMap (failLog (timestampSanityValidate nowW) "timestamp") ∧
    (∀ e ∈ (runSaleLoop tableW).logs, e.level = "WARNING") ∧
    (∀ e ∈ (runTimestampSanityLoop nowW tableW).logs, e.level = "WARNING") ∧
    (∀ (sId : Nat) (v : Value) (err : VError), renderLog sId v err =
      { level := "WARNING",
        text := "issue with sale: " ++ toString sId ++ " (" ++ Value.render v
                ++ ") - " ++ VError.message err }) :=
  warning_log_lines tableW nowW (by decide) (by decide)

/-- C10: because every schema allows extra keys, the fields other than
the one required field never cause a failure: any row whose required
field satisfies its rule passes, whatever other fields it carries. -/
theorem allow_extra_passes (row : Row) :
    (∀ q : ℚ, lookupField row "sale_amount" = some (Value.float q) →
      saleMin ≤ q → q ≤ saleMax → saleAmountValidate row = VResult.ok) ∧
    (∀ s : String, lookupField row "timestamp" = some (Value.str s) →
      (strptimeISO s).isSome = true → timestampFormatValidate row = VResult.ok) ∧
    (∀ (s : String) (dt now : DateTime),
      lookupField row "timestamp" = some (Value.str s) →
      strptimeISO s = some dt → DateTime.le dt now = true →
      timestampSanityValidate now row = VResult.ok) := by
  refine ⟨?_, ?_, ?_⟩
  · intro q hq h1 h2
    rw [saleAmountValidate_float row q hq, if_neg (not_lt.mpr h1),
        if_neg (not_lt.mpr h2)]
  · intro s hs hp
    obtain ⟨dt, hdt⟩ := Option.isSome_iff_exists.mp hp
    unfold timestampFormatValidate
    rw [hs]
    dsimp only
    rw [hdt]
  · intro s dt now hs hp hle
    rw [timestampSanity_str_cases now row s hs, hp]
    dsimp only
    rw [if_pos hle]

/-- Witness for C10 at the concrete row rowGood, which carries the extra
column store. -/
theorem allow_extra_passes_witness :
    saleAmountValidate rowGood = VResult.ok ∧
    timestampFormatValidate rowGood = VResult.ok ∧
    timestampSanityValidate nowW rowGood = VResult.ok :=
  ⟨(allow_extra_passes rowGood).1 500 (by rfl) (by norm_num [saleMin])
     (by norm_num [saleMax]),
   (allow_extra_passes rowGood).2.1 "2018-01-02T03:04:05" (by rfl) (by rfl),
   (allow_extra_passes rowGood).2.2 "2018-01-02T03:04:05" ⟨2018, 1, 2, 3, 4, 5⟩
     nowW (by rfl) (by rfl) (by rfl)⟩

end DataVal
